import Mathlib

/-!
Verification of the horovod MPI collective layer
(`horovod/common/ops/mpi_operations.cc` and its header) against its
natural-language specification.

The C++ code is shallowly embedded: each `MPIContext` method becomes a pure
Lean function that returns the backend call(s) it issues (as a trace) together
with an `Except String` result modelling the `throw std::logic_error` paths.
Backend (MPI library) return statuses are passed in as explicit arguments,
since the real values come from outside this layer.  Enum-typed C++ values
(`DataType`, `Communicator`) are embedded as integers, as in C++, so that the
`default:` branches of the switch statements of the source are expressible.
-/

namespace Horovod

/-- The MPI success status code. -/
def MPI_SUCCESS : Int := 0

/-- An opaque MPI communicator handle. -/
abbrev MPIComm := Nat

/-- An opaque MPI shared-memory window handle. -/
abbrev MPIWin := Nat

/-- Backend datatype handles: the MPI predefined types named in
`MPIContext::GetMPIDataType`, plus handles for custom types registered at
context initialization (such as `mpi_float16_t`). -/
inductive MPIDatatype where
  | MPI_UINT8_T
  | MPI_INT8_T
  | MPI_UINT16_T
  | MPI_INT16_T
  | MPI_INT32_T
  | MPI_INT64_T
  | MPI_FLOAT
  | MPI_DOUBLE
  | MPI_C_BOOL
  | MPI_BYTE
  | MPI_DATATYPE_NULL
  | registered (id : Nat)
  deriving DecidableEq, Repr

/-- Backend reduction operator handles: the native MPI sum plus custom operators
registered at context initialization (such as `mpi_float16_sum`). -/
inductive MPIOp where
  | MPI_SUM
  | registered (id : Nat)
  deriving DecidableEq, Repr

/-- The horovod datatype enumeration, embedded as its underlying integer as in
C++ so that values outside the enumeration (reaching the `switch` default) are
representable. -/
abbrev DataType := Int

def HOROVOD_UINT8 : DataType := 0

def HOROVOD_INT8 : DataType := 1

def HOROVOD_UINT16 : DataType := 2

def HOROVOD_INT16 : DataType := 3

def HOROVOD_INT32 : DataType := 4

def HOROVOD_INT64 : DataType := 5

def HOROVOD_FLOAT16 : DataType := 6

def HOROVOD_FLOAT32 : DataType := 7

def HOROVOD_FLOAT64 : DataType := 8

def HOROVOD_BOOL : DataType := 9

def HOROVOD_BYTE : DataType := 10

def HOROVOD_NULL : DataType := 11

/-- The communicator scope enumeration of `CommunicationContext`, embedded as
its underlying integer as in C++. -/
abbrev Communicator := Int

def GLOBAL : Communicator := 0

def LOCAL : Communicator := 1

def CROSS : Communicator := 2

/-- Modelled from the spec: `DataType_Name` (defined in the message code of the repository, which is not under `src/`) yields the human-readable name of a
datatype, carried inside unsupported-type error messages. -/
def DataType_Name (d : DataType) : String :=
  if d = HOROVOD_UINT8 then "uint8"
  else if d = HOROVOD_INT8 then "int8"
  else if d = HOROVOD_UINT16 then "uint16"
  else if d = HOROVOD_INT16 then "int16"
  else if d = HOROVOD_INT32 then "int32"
  else if d = HOROVOD_INT64 then "int64"
  else if d = HOROVOD_FLOAT16 then "float16"
  else if d = HOROVOD_FLOAT32 then "float32"
  else if d = HOROVOD_FLOAT64 then "float64"
  else if d = HOROVOD_BOOL then "bool"
  else if d = HOROVOD_BYTE then "byte"
  else if d = HOROVOD_NULL then "null"
  else "unknown"

/-- Modelled from the spec: `CommunicatorName` (defined in the communication-context code of the repository, which is not under `src/`) yields the
human-readable name of a communicator scope, carried inside unsupported-scope
error messages. -/
def CommunicatorName (c : Communicator) : String :=
  if c = GLOBAL then "global"
  else if c = LOCAL then "local"
  else if c = CROSS then "cross"
  else "unknown"

/-- The state of one `MPIContext`: the custom float16 type and summation
operator registered at startup, the three communicator handles resolved at
startup, and the shared-memory window handle. -/
structure MPIContext where
  mpi_float16_t : MPIDatatype
  mpi_float16_sum : MPIOp
  mpi_comm : MPIComm
  local_comm : MPIComm
  cross_comm : MPIComm
  window : MPIWin
  deriving DecidableEq, Repr

/-- `MPIContext::GetMPIDataType(DataType)`: the `switch` of
mpi_operations.cc lines 92-122, one branch per enumerator, with the `default`
branch throwing an unsupported-type error. -/
def MPIContext.GetMPIDataType (ctx : MPIContext) (dtype : DataType) :
    Except String MPIDatatype :=
  if dtype = HOROVOD_UINT8 then .ok .MPI_UINT8_T
  else if dtype = HOROVOD_INT8 then .ok .MPI_INT8_T
  else if dtype = HOROVOD_UINT16 then .ok .MPI_UINT16_T
  else if dtype = HOROVOD_INT16 then .ok .MPI_INT16_T
  else if dtype = HOROVOD_INT32 then .ok .MPI_INT32_T
  else if dtype = HOROVOD_INT64 then .ok .MPI_INT64_T
  else if dtype = HOROVOD_FLOAT16 then .ok ctx.mpi_float16_t
  else if dtype = HOROVOD_FLOAT32 then .ok .MPI_FLOAT
  else if dtype = HOROVOD_FLOAT64 then .ok .MPI_DOUBLE
  else if dtype = HOROVOD_BOOL then .ok .MPI_C_BOOL
  else if dtype = HOROVOD_BYTE then .ok .MPI_BYTE
  else if dtype = HOROVOD_NULL then .ok .MPI_DATATYPE_NULL
  else .error ("Type " ++ DataType_Name dtype ++ " is not supported in MPI mode.")

/-- `MPIContext::GetMPICommunicator`: the `switch` of mpi_operations.cc
lines 124-136, with the `default` branch throwing an unsupported-scope
error. -/
def MPIContext.GetMPICommunicator (ctx : MPIContext) (comm : Communicator) :
    Except String MPIComm :=
  if comm = GLOBAL then .ok ctx.mpi_comm
  else if comm = LOCAL then .ok ctx.local_comm
  else if comm = CROSS then .ok ctx.cross_comm
  else .error ("Communicator " ++ CommunicatorName comm ++
               " is not supported in MPI mode.")

/-- The supported (non-null) datatypes of the enumeration. -/
def supportedDataTypes : List DataType :=
  [HOROVOD_UINT8, HOROVOD_INT8, HOROVOD_UINT16, HOROVOD_INT16,
   HOROVOD_INT32, HOROVOD_INT64, HOROVOD_FLOAT16, HOROVOD_FLOAT32,
   HOROVOD_FLOAT64, HOROVOD_BOOL, HOROVOD_BYTE]

/-- A sample context used to evaluate the embedded code at concrete inputs. -/
def ctx0 : MPIContext :=
  { mpi_float16_t := .registered 0
    mpi_float16_sum := .registered 0
    mpi_comm := 10
    local_comm := 11
    cross_comm := 12
    window := 0 }

/-- A send-buffer argument as handed to the backend: either the special
`MPI_IN_PLACE` marker or a real address. -/
inductive MPIBuf where
  | inPlace
  | ptr (a : Nat)
  deriving DecidableEq, Repr

/-- One entry of the tensor table: the fields of `TensorTableEntry` this layer
reads — the data address and datatype of the input tensor and the
data address of the output tensor. -/
structure TensorTableEntry where
  tensor_data : Nat
  output_data : Nat
  dtype : DataType
  deriving DecidableEq, Repr

/-- The arguments of one `MPI_Allreduce` backend call. -/
structure AllreduceCall where
  sendbuf : MPIBuf
  recvbuf : Nat
  count : Int
  datatype : MPIDatatype
  op : MPIOp
  comm : MPIComm
  deriving DecidableEq, Repr

/-- The `MPI_Allreduce` call constructed by `MPIContext::Allreduce`
(mpi_operations.cc lines 22-33): `MPI_IN_PLACE` when `sendbuff` is null,
the datatype resolved from the tensor of the first entry, the custom float16
summation operator when the entry dtype is `HOROVOD_FLOAT16` and native
`MPI_SUM` otherwise, and the communicator resolved from `comm`.  Resolution
failure (an unsupported dtype or scope) propagates as the thrown error. -/
def MPIContext.AllreduceCallOf (ctx : MPIContext) (buffer_data : Nat)
    (num_elements : Int) (first_entry : TensorTableEntry)
    (sendbuff : Option Nat) (comm : Communicator) :
    Except String AllreduceCall := do
  let dt ← ctx.GetMPIDataType first_entry.dtype
  let c ← ctx.GetMPICommunicator comm
  pure
    { sendbuf := match sendbuff with
        | some p => MPIBuf.ptr p
        | none => MPIBuf.inPlace
      recvbuf := buffer_data
      count := num_elements
      datatype := dt
      op := if first_entry.dtype = HOROVOD_FLOAT16 then ctx.mpi_float16_sum
            else MPIOp.MPI_SUM
      comm := c }

/-- `MPIContext::Allreduce`: issues the constructed `MPI_Allreduce` call and
throws when the backend status (`backendStatus`, the value the MPI library
returned) is not `MPI_SUCCESS`.  The first component is the list of backend
calls actually issued. -/
def MPIContext.Allreduce (ctx : MPIContext) (backendStatus : Int)
    (buffer_data : Nat) (num_elements : Int) (first_entry : TensorTableEntry)
    (sendbuff : Option Nat) (comm : Communicator) :
    List AllreduceCall × Except String Unit :=
  match ctx.AllreduceCallOf buffer_data num_elements first_entry sendbuff comm with
  | .error e => ([], .error e)
  | .ok call =>
    ([call],
     if backendStatus = MPI_SUCCESS then .ok ()
     else .error "MPI_Allreduce failed, see MPI output for details.")

/-- The arguments of one `MPI_Allgatherv` backend call. -/
structure AllgathervCall where
  sendbuf : MPIBuf
  sendcount : Int
  sendtype : MPIDatatype
  recvbuf : Nat
  recvcounts : List Int
  displs : List Int
  recvtype : MPIDatatype
  comm : MPIComm
  deriving DecidableEq, Repr

/-- The `MPI_Allgatherv` call constructed by `MPIContext::Allgatherv`:
`MPI_IN_PLACE` when `sendbuf` is null, send and receive datatypes resolved
through `GetMPIDataType`, communicator resolved through
`GetMPICommunicator`; resolution failure propagates as the thrown error. -/
def MPIContext.AllgathervCallOf (ctx : MPIContext)
    (sendbuf : Option Nat) (sendcount : Int) (sendtype : DataType)
    (recvbuf : Nat) (recvcounts displs : List Int) (recvtype : DataType)
    (comm : Communicator) : Except String AllgathervCall := do
  let st ← ctx.GetMPIDataType sendtype
  let rt ← ctx.GetMPIDataType recvtype
  let c ← ctx.GetMPICommunicator comm
  pure
    { sendbuf := match sendbuf with
        | some p => MPIBuf.ptr p
        | none => MPIBuf.inPlace
      sendcount := sendcount
      sendtype := st
      recvbuf := recvbuf
      recvcounts := recvcounts
      displs := displs
      recvtype := rt
      comm := c }

/-- `MPIContext::Allgatherv` (mpi_operations.cc lines 35-45): `MPI_IN_PLACE`
when `sendbuf` is null; throws when the backend status is not success. -/
def MPIContext.Allgatherv (ctx : MPIContext) (backendStatus : Int)
    (sendbuf : Option Nat) (sendcount : Int) (sendtype : DataType)
    (recvbuf : Nat) (recvcounts displs : List Int) (recvtype : DataType)
    (comm : Communicator) : List AllgathervCall × Except String Unit :=
  match ctx.AllgathervCallOf sendbuf sendcount sendtype recvbuf recvcounts
      displs recvtype comm with
  | .error e => ([], .error e)
  | .ok call =>
    ([call],
     if backendStatus = MPI_SUCCESS then .ok ()
     else .error "MPI_Allgatherv failed, see MPI output for details.")

/-- The arguments of one `MPI_Bcast` backend call. -/
structure BcastCall where
  buffer : Nat
  count : Int
  datatype : MPIDatatype
  root : Int
  comm : MPIComm
  deriving DecidableEq, Repr

/-- The `MPI_Bcast` call constructed by `MPIContext::Broadcast`: datatype and
communicator resolved through the context; resolution failure propagates as
the thrown error. -/
def MPIContext.BcastCallOf (ctx : MPIContext) (buffer_data : Nat)
    (num_elements : Int) (dtype : DataType) (root_rank : Int)
    (comm : Communicator) : Except String BcastCall := do
  let dt ← ctx.GetMPIDataType dtype
  let c ← ctx.GetMPICommunicator comm
  pure
    { buffer := buffer_data
      count := num_elements
      datatype := dt
      root := root_rank
      comm := c }

/-- `MPIContext::Broadcast` (mpi_operations.cc lines 47-58): throws
`MPI_Broadcast failed` when the backend status is not success. -/
def MPIContext.Broadcast (ctx : MPIContext) (backendStatus : Int)
    (buffer_data : Nat) (num_elements : Int) (dtype : DataType)
    (root_rank : Int) (comm : Communicator) :
    List BcastCall × Except String Unit :=
  match ctx.BcastCallOf buffer_data num_elements dtype root_rank comm with
  | .error e => ([], .error e)
  | .ok call =>
    ([call],
     if backendStatus = MPI_SUCCESS then .ok ()
     else .error "MPI_Broadcast failed, see MPI output for details.")

/-- `MPIContext::Barrier` (mpi_operations.cc lines 60-65): throws when the
backend status is not success. -/
def MPIContext.Barrier (ctx : MPIContext) (backendStatus : Int)
    (comm : Communicator) : List MPIComm × Except String Unit :=
  match ctx.GetMPICommunicator comm with
  | .error e => ([], .error e)
  | .ok c =>
    ([c],
     if backendStatus = MPI_SUCCESS then .ok ()
     else .error "MPI_Barrier failed, see MPI output for details.")

/-- The arguments of one `MPI_Win_allocate_shared` backend call. -/
structure WinAllocateCall where
  window_size : Int
  element_size : Int
  comm : MPIComm
  deriving DecidableEq, Repr

/-- `MPIContext::AllocateSharedBuffer` (mpi_operations.cc lines 67-71): issues
`MPI_Win_allocate_shared` and stores the produced window handle
(`newWindow`) in the context.  The backend return status (`backendStatus`)
is not examined by the source: the function never throws on it. -/
def MPIContext.AllocateSharedBuffer (ctx : MPIContext) (backendStatus : Int)
    (newWindow : MPIWin) (window_size : Int) (element_size : Int)
    (comm : Communicator) : List WinAllocateCall × Except String MPIContext :=
  match ctx.GetMPICommunicator comm with
  | .error e => ([], .error e)
  | .ok c =>
    ([{ window_size := window_size, element_size := element_size, comm := c }],
     .ok { ctx with window := newWindow })

/-- Events on the shared-memory window. -/
inductive WinEvent where
  | fence (assert : Int) (w : MPIWin)
  | free (w : MPIWin)
  | sharedQuery (w : MPIWin) (rank : Int)
  deriving DecidableEq, Repr

/-- `MPIContext::FreeSharedBuffer` (mpi_operations.cc lines 73-76):
`MPI_Win_fence(0, window)` followed by `MPI_Win_free(&window)`.  Neither
backend status (`fenceStatus`, `freeStatus`) is examined by the source, so the
function never throws. -/
def MPIContext.FreeSharedBuffer (ctx : MPIContext)
    (fenceStatus freeStatus : Int) : List WinEvent × Except String MPIContext :=
  ([WinEvent.fence 0 ctx.window, WinEvent.free ctx.window],
   .ok { ctx with window := 0 })

/-- `MPIContext::QuerySharedBuffer` (mpi_operations.cc lines 78-82): issues
`MPI_Win_shared_query` for `rank`; the backend status is not examined by the
source, so the function never throws. -/
def MPIContext.QuerySharedBuffer (ctx : MPIContext) (backendStatus : Int)
    (rank : Int) : List WinEvent × Except String Unit :=
  ([WinEvent.sharedQuery ctx.window rank], .ok ())

/-- `DoMPIAllreduce` (mpi_operations.cc lines 138-145): computes the send
buffer from the batch — null (in place) when the batch has more than one entry
or the input and output data addresses of the first entry coincide,
the input address of the first entry otherwise — and calls `MPIContext::Allreduce` on the
GLOBAL scope. -/
def DoMPIAllreduce (ctx : MPIContext) (backendStatus : Int)
    (entries : List TensorTableEntry) (h : entries ≠ [])
    (buffer_data : Nat) (num_elements : Int) :
    List AllreduceCall × Except String Unit :=
  let first_entry := entries.head h
  let sendbuf : Option Nat :=
    if entries.length > 1 ∨ first_entry.tensor_data = first_entry.output_data
    then none else some first_entry.tensor_data
  ctx.Allreduce backendStatus buffer_data num_elements first_entry sendbuf GLOBAL

/-- Modelled from the spec: the tuning-configuration collaborator
(`ParameterManager`, not under `src/`) exposes a boolean runtime-adjustable
hierarchical-allgather flag read through its `HierarchicalAllgather()`
accessor. -/
structure ParameterManager where
  hierarchical_allgather : Bool
  deriving DecidableEq, Repr

def ParameterManager.HierarchicalAllgather (pm : ParameterManager) : Bool :=
  pm.hierarchical_allgather

/-- The coordinator response handed to the `Enabled` predicates; opaque to
this layer. -/
structure MPIResponse where
  deriving DecidableEq, Repr

/-- `MPIAllreduce::Enabled` (mpi_operations.cc lines 152-156): always true. -/
def MPIAllreduce.Enabled (param_manager : ParameterManager)
    (entries : List TensorTableEntry) (response : MPIResponse) : Bool :=
  true

/-- `MPIAllgather::Enabled` (mpi_operations.cc lines 188-192): always true. -/
def MPIAllgather.Enabled (param_manager : ParameterManager)
    (entries : List TensorTableEntry) (response : MPIResponse) : Bool :=
  true

/-- `MPIBroadcast::Enabled` (mpi_operations.cc lines 236-240): always true. -/
def MPIBroadcast.Enabled (param_manager : ParameterManager)
    (entries : List TensorTableEntry) (response : MPIResponse) : Bool :=
  true

/-- `MPIHierarchicalAllgather::Enabled` (mpi_operations.cc lines 210-214):
the hierarchical-allgather flag of the tuning configuration. -/
def MPIHierarchicalAllgather.Enabled (param_manager : ParameterManager)
    (entries : List TensorTableEntry) (response : MPIResponse) : Bool :=
  param_manager.HierarchicalAllgather

/-- The fields of `HorovodGlobalState` read by the hierarchical allgather. -/
structure HorovodGlobalState where
  is_homogeneous : Bool
  local_rank : Int
  deriving DecidableEq, Repr

/-- The timeline activity tag used by the hierarchical allgather. -/
def MPI_CROSS_ALLGATHER : String := "MPI_CROSS_ALLGATHER"

/-- Events of one hierarchical-allgather execution: timeline instrumentation
and calls into the communication context (which still carry the logical
`Communicator` scope they were issued on). -/
inductive HierEvent where
  | activityStartAll (activity : String)
  | activityEndAll
  | allgatherv (sendbuf : Option Nat) (sendcount : Int) (sendtype : DataType)
      (recvbuf : Nat) (recvcounts : List Int) (displs : List Int)
      (recvtype : DataType) (comm : Communicator)
  | barrier (comm : Communicator)
  deriving DecidableEq, Repr

def HierEvent.isAllgatherv : HierEvent → Bool
  | .allgatherv _ _ _ _ _ _ _ _ => true
  | _ => false

def HierEvent.isBarrier : HierEvent → Bool
  | .barrier _ => true
  | _ => false

def WinEvent.isFree : WinEvent → Bool
  | .free _ => true
  | _ => false

/-- `MPIHierarchicalAllgather::DoAllgatherv` (mpi_operations.cc lines
216-229): start instrumentation; if the cluster is homogeneous or the calling
local rank of the calling rank is 0, issue the CROSS-scope `Allgatherv`; then a GLOBAL
`Barrier`; end instrumentation.  A non-success status from the underlying
`Allgatherv` (`allgathervStatus`) or `Barrier` (`barrierStatus`) throws at
that point, cutting the trace short. -/
def MPIHierarchicalAllgather.DoAllgatherv (gs : HorovodGlobalState)
    (allgathervStatus barrierStatus : Int)
    (sendbuf : Option Nat) (sendcount : Int) (sendtype : DataType)
    (recvbuf : Nat) (recvcounts displs : List Int) (recvtype : DataType) :
    List HierEvent × Except String Unit :=
  let start := [HierEvent.activityStartAll MPI_CROSS_ALLGATHER]
  if gs.is_homogeneous || gs.local_rank == 0 then
    let cross := start ++
      [HierEvent.allgatherv sendbuf sendcount sendtype recvbuf recvcounts
        displs recvtype CROSS]
    if allgathervStatus = MPI_SUCCESS then
      if barrierStatus = MPI_SUCCESS then
        (cross ++ [HierEvent.barrier GLOBAL, HierEvent.activityEndAll], .ok ())
      else
        (cross ++ [HierEvent.barrier GLOBAL],
         .error "MPI_Barrier failed, see MPI output for details.")
    else
      (cross, .error "MPI_Allgatherv failed, see MPI output for details.")
  else
    if barrierStatus = MPI_SUCCESS then
      (start ++ [HierEvent.barrier GLOBAL, HierEvent.activityEndAll], .ok ())
    else
      (start ++ [HierEvent.barrier GLOBAL],
       .error "MPI_Barrier failed, see MPI output for details.")

/-- Helper: a failing datatype resolution propagates out of the
`MPI_Allreduce` call construction. -/
lemma allreduceCallOf_error (ctx : MPIContext) (buffer_data : Nat)
    (num_elements : Int) (entry : TensorTableEntry) (sendbuff : Option Nat)
    (comm : Communicator) (e : String)
    (hdt : ctx.GetMPIDataType entry.dtype = .error e) :
    ctx.AllreduceCallOf buffer_data num_elements entry sendbuff comm =
      .error e := by
  unfold MPIContext.AllreduceCallOf
  rw [hdt]
  rfl

/-- Helper: the `MPI_Allreduce` call constructed when both resolutions
succeed. -/
lemma allreduceCallOf_ok (ctx : MPIContext) (buffer_data : Nat)
    (num_elements : Int) (entry : TensorTableEntry) (sendbuff : Option Nat)
    (comm : Communicator) (dt : MPIDatatype) (c : MPIComm)
    (hdt : ctx.GetMPIDataType entry.dtype = .ok dt)
    (hc : ctx.GetMPICommunicator comm = .ok c) :
    ctx.AllreduceCallOf buffer_data num_elements entry sendbuff comm =
      .ok { sendbuf := match sendbuff with
              | some p => MPIBuf.ptr p
              | none => MPIBuf.inPlace
            recvbuf := buffer_data
            count := num_elements
            datatype := dt
            op := if entry.dtype = HOROVOD_FLOAT16 then ctx.mpi_float16_sum
                  else MPIOp.MPI_SUM
            comm := c } := by
  unfold MPIContext.AllreduceCallOf
  rw [hdt, hc]
  rfl

/-- C1.  The claim states that `GetMPIDataType` fails fatally on
`HOROVOD_NULL`; in the source `HOROVOD_NULL` is an explicit `case` returning
`MPI_DATATYPE_NULL`, so the amended statement is: every supported datatype
resolves to a backend handle, `HOROVOD_NULL` resolves to the backend null
handle `MPI_DATATYPE_NULL`, and only datatype values outside the enumeration
fail with the unsupported-type error carrying the name of the type. -/
theorem getMPIDataType_spec (ctx : MPIContext) :
    ctx.GetMPIDataType HOROVOD_NULL = .ok .MPI_DATATYPE_NULL ∧
    (∀ dt ∈ supportedDataTypes, ∃ h, ctx.GetMPIDataType dt = .ok h) ∧
    (∀ dt : DataType, dt ∉ supportedDataTypes → dt ≠ HOROVOD_NULL →
      ctx.GetMPIDataType dt =
        .error ("Type " ++ DataType_Name dt ++
                " is not supported in MPI mode.")) := by
  refine ⟨rfl, ?_, ?_⟩
  · intro dt hdt
    simp only [supportedDataTypes, List.mem_cons, List.not_mem_nil,
      or_false] at hdt
    rcases hdt with rfl | rfl | rfl | rfl | rfl | rfl | rfl | rfl | rfl |
      rfl | rfl <;> exact ⟨_, rfl⟩
  · intro dt h1 h2
    simp only [supportedDataTypes, List.mem_cons, List.not_mem_nil,
      or_false, not_or] at h1
    obtain ⟨n0, n1, n2, n3, n4, n5, n6, n7, n8, n9, n10⟩ := h1
    simp [MPIContext.GetMPIDataType, n0, n1, n2, n3, n4, n5, n6, n7, n8, n9,
      n10, h2]

/-- C1 witness: a datatype value outside the enumeration fails with the
unsupported-type error. -/
theorem getMPIDataType_spec_witness :
    ctx0.GetMPIDataType 99 =
      .error ("Type " ++ DataType_Name 99 ++
              " is not supported in MPI mode.") :=
  (getMPIDataType_spec ctx0).2.2 99 (by decide) (by decide)

/-- C1 counterexample: on `HOROVOD_NULL` the resolver returns the backend
handle `MPI_DATATYPE_NULL` instead of failing, refuting the claim that the
null marker is a fatal-error case. -/
theorem getMPIDataType_null_returns_handle :
    ctx0.GetMPIDataType HOROVOD_NULL = .ok .MPI_DATATYPE_NULL := rfl

/-- C7.  `GetMPICommunicator` returns, for each of GLOBAL, LOCAL and CROSS,
exactly the handle stored in the context at process start (so repeated calls
on the unchanging context give the same handle), and fails with the
unsupported-scope error carrying the name of the scope for every other
value. -/
theorem getMPICommunicator_spec (ctx : MPIContext) :
    ctx.GetMPICommunicator GLOBAL = .ok ctx.mpi_comm ∧
    ctx.GetMPICommunicator LOCAL = .ok ctx.local_comm ∧
    ctx.GetMPICommunicator CROSS = .ok ctx.cross_comm ∧
    (∀ c : Communicator, c ≠ GLOBAL → c ≠ LOCAL → c ≠ CROSS →
      ctx.GetMPICommunicator c =
        .error ("Communicator " ++ CommunicatorName c ++
                " is not supported in MPI mode.")) := by
  refine ⟨rfl, rfl, rfl, ?_⟩
  intro c h0 h1 h2
  simp [MPIContext.GetMPICommunicator, h0, h1, h2]

/-- C7 witness: scope value 3 is outside the enumeration and fails with the
unsupported-scope error. -/
theorem getMPICommunicator_spec_witness :
    ctx0.GetMPICommunicator 3 =
      .error ("Communicator " ++ CommunicatorName 3 ++
              " is not supported in MPI mode.") :=
  (getMPICommunicator_spec ctx0).2.2.2 3 (by decide) (by decide) (by decide)

/-- C8.  The enablement predicates of the plain Allreduce, plain Allgather
and Broadcast dispatchers are constantly true; the Hierarchical Allgather
one is true exactly when the hierarchical-allgather flag of the tuning
configuration is set. -/
theorem enabled_spec (pm : ParameterManager)
    (entries : List TensorTableEntry) (response : MPIResponse) :
    MPIAllreduce.Enabled pm entries response = true ∧
    MPIAllgather.Enabled pm entries response = true ∧
    MPIBroadcast.Enabled pm entries response = true ∧
    (MPIHierarchicalAllgather.Enabled pm entries response = true ↔
      pm.hierarchical_allgather = true) := by
  exact ⟨rfl, rfl, rfl, Iff.rfl⟩

/-- C4.  In every `MPI_Allreduce` call constructed by `MPIContext::Allreduce`,
a null send buffer becomes the in-place marker `MPI_IN_PLACE` (input taken
from the output buffer), a non-null send buffer is passed through as the
separate source, and the output buffer argument is always `buffer_data`. -/
theorem allreduce_inplace_spec (ctx : MPIContext) (buffer_data : Nat)
    (num_elements : Int) (entry : TensorTableEntry) (sendbuff : Option Nat)
    (comm : Communicator) (call : AllreduceCall)
    (hok : ctx.AllreduceCallOf buffer_data num_elements entry sendbuff comm =
      .ok call) :
    call.recvbuf = buffer_data ∧
    (sendbuff = none → call.sendbuf = MPIBuf.inPlace) ∧
    (∀ p, sendbuff = some p → call.sendbuf = MPIBuf.ptr p) := by
  cases hdt : ctx.GetMPIDataType entry.dtype with
  | error e =>
    unfold MPIContext.AllreduceCallOf at hok
    rw [hdt] at hok
    exact absurd hok (by simp [Bind.bind, Except.bind])
  | ok dt =>
    cases hc : ctx.GetMPICommunicator comm with
    | error e =>
      unfold MPIContext.AllreduceCallOf at hok
      rw [hdt, hc] at hok
      exact absurd hok (by simp [Bind.bind, Except.bind])
    | ok c =>
      rw [allreduceCallOf_ok ctx buffer_data num_elements entry sendbuff comm
        dt c hdt hc] at hok
      cases hok
      refine ⟨rfl, ?_, ?_⟩
      · rintro rfl; rfl
      · rintro p rfl; rfl

/-- C4 witness: with a null send buffer the constructed call is in place. -/
theorem allreduce_inplace_spec_witness :
    AllreduceCall.sendbuf
      { sendbuf := MPIBuf.inPlace, recvbuf := 5, count := 3,
        datatype := .MPI_FLOAT, op := .MPI_SUM, comm := 10 } =
      MPIBuf.inPlace :=
  (allreduce_inplace_spec ctx0 5 3 ⟨1, 2, HOROVOD_FLOAT32⟩ none GLOBAL
    _ rfl).2.1 rfl

/-- C5.  `MPIContext::Allreduce` selects the reduction operator from the
entry datatype: the custom registered summation operator of the context for
16-bit float (and then the datatype handle is likewise the custom registered
type of the context), and the native `MPI_SUM` for every other datatype. -/
theorem allreduce_op_spec (ctx : MPIContext) (buffer_data : Nat)
    (num_elements : Int) (entry : TensorTableEntry) (sendbuff : Option Nat)
    (comm : Communicator) (call : AllreduceCall)
    (hok : ctx.AllreduceCallOf buffer_data num_elements entry sendbuff comm =
      .ok call) :
    (entry.dtype = HOROVOD_FLOAT16 →
      call.op = ctx.mpi_float16_sum ∧ call.datatype = ctx.mpi_float16_t) ∧
    (entry.dtype ≠ HOROVOD_FLOAT16 → call.op = MPIOp.MPI_SUM) := by
  cases hdt : ctx.GetMPIDataType entry.dtype with
  | error e =>
    unfold MPIContext.AllreduceCallOf at hok
    rw [hdt] at hok
    exact absurd hok (by simp [Bind.bind, Except.bind])
  | ok dt =>
    cases hc : ctx.GetMPICommunicator comm with
    | error e =>
      unfold MPIContext.AllreduceCallOf at hok
      rw [hdt, hc] at hok
      exact absurd hok (by simp [Bind.bind, Except.bind])
    | ok c =>
      rw [allreduceCallOf_ok ctx buffer_data num_elements entry sendbuff comm
        dt c hdt hc] at hok
      cases hok
      constructor
      · intro hf
        have hdt16 : ctx.GetMPIDataType entry.dtype = .ok ctx.mpi_float16_t := by
          rw [hf]; rfl
        rw [hdt16] at hdt
        cases hdt
        exact ⟨by simp [hf], rfl⟩
      · intro hf
        simp [hf]

/-- C5 witness: a 16-bit-float entry uses the custom registered type and
summation operator of the sample context. -/
theorem allreduce_op_spec_witness :
    AllreduceCall.op
        { sendbuf := MPIBuf.inPlace, recvbuf := 5, count := 3,
          datatype := .registered 0, op := .registered 0, comm := 10 } =
        ctx0.mpi_float16_sum ∧
      AllreduceCall.datatype
        { sendbuf := MPIBuf.inPlace, recvbuf := 5, count := 3,
          datatype := .registered 0, op := .registered 0, comm := 10 } =
        ctx0.mpi_float16_t :=
  (allreduce_op_spec ctx0 5 3 ⟨1, 2, HOROVOD_FLOAT16⟩ none GLOBAL
    _ rfl).1 rfl

/-- C10.  `DoMPIAllreduce` always targets the GLOBAL scope, and passes a
separate (out-of-place) send buffer exactly when the batch has a single entry
whose input and output data addresses differ; a batch with several entries,
or whose first entry has coinciding input and output addresses, is reduced in
place. -/
theorem doMPIAllreduce_spec (ctx : MPIContext) (backendStatus : Int)
    (entries : List TensorTableEntry) (h : entries ≠ [])
    (buffer_data : Nat) (num_elements : Int) :
    ∀ call ∈ (DoMPIAllreduce ctx backendStatus entries h buffer_data
        num_elements).1,
      call.comm = ctx.mpi_comm ∧
      (entries.length = 1 ∧
          (entries.head h).tensor_data ≠ (entries.head h).output_data →
        call.sendbuf = MPIBuf.ptr (entries.head h).tensor_data) ∧
      (entries.length > 1 ∨
          (entries.head h).tensor_data = (entries.head h).output_data →
        call.sendbuf = MPIBuf.inPlace) := by
  intro call hcall
  have hcall2 : call ∈ (ctx.Allreduce backendStatus buffer_data num_elements
      (entries.head h)
      (if entries.length > 1 ∨
          (entries.head h).tensor_data = (entries.head h).output_data
       then none else some (entries.head h).tensor_data) GLOBAL).1 := hcall
  unfold MPIContext.Allreduce at hcall2
  cases hdt : ctx.GetMPIDataType (entries.head h).dtype with
  | error e =>
    rw [allreduceCallOf_error ctx buffer_data num_elements (entries.head h) _
      GLOBAL e hdt] at hcall2
    simp at hcall2
  | ok dt =>
    rw [allreduceCallOf_ok ctx buffer_data num_elements (entries.head h) _
      GLOBAL dt ctx.mpi_comm hdt rfl] at hcall2
    simp only [List.mem_singleton] at hcall2
    subst hcall2
    refine ⟨rfl, ?_, ?_⟩
    · intro ⟨hlen, hne⟩
      have hnc : ¬(entries.length > 1 ∨
          (entries.head h).tensor_data = (entries.head h).output_data) := by
        rintro (hgt | heq)
        · omega
        · exact hne heq
      rw [if_neg hnc]
    · intro hcond
      rw [if_pos hcond]

/-- C10 witness: a single-entry batch with distinct input and output
addresses passes the input address as the out-of-place send buffer. -/
theorem doMPIAllreduce_spec_witness :
    AllreduceCall.sendbuf
      { sendbuf := MPIBuf.ptr 1, recvbuf := 2, count := 5,
        datatype := .MPI_FLOAT, op := .MPI_SUM, comm := 10 } =
      MPIBuf.ptr 1 :=
  (doMPIAllreduce_spec ctx0 0 [⟨1, 2, HOROVOD_FLOAT32⟩] (by decide) 2 5
    _ (by decide)).2.1 (by decide)

/-- C2.  The claim states that on a homogeneous cluster only local-rank 0
issues the cross-node Allgatherv; in the source the branch condition is
`is_homogeneous || local_rank == 0`, so on a homogeneous cluster every rank
issues it.  Amended statement: the cross-node Allgatherv is issued exactly
when the cluster is homogeneous or the calling rank has local rank 0 (so
only on a heterogeneous cluster do ranks with non-zero local rank skip it),
and every issued cross-node Allgatherv is CROSS-scoped with the supplied
arguments. -/
theorem hier_allgather_cross_participation (gs : HorovodGlobalState)
    (allgathervStatus barrierStatus : Int) (sendbuf : Option Nat)
    (sendcount : Int) (sendtype : DataType) (recvbuf : Nat)
    (recvcounts displs : List Int) (recvtype : DataType) :
    ((MPIHierarchicalAllgather.DoAllgatherv gs allgathervStatus barrierStatus
        sendbuf sendcount sendtype recvbuf recvcounts displs
        recvtype).1.any HierEvent.isAllgatherv =
      (gs.is_homogeneous || gs.local_rank == 0)) ∧
    (∀ e ∈ (MPIHierarchicalAllgather.DoAllgatherv gs allgathervStatus
        barrierStatus sendbuf sendcount sendtype recvbuf recvcounts displs
        recvtype).1, HierEvent.isAllgatherv e = true →
      e = HierEvent.allgatherv sendbuf sendcount sendtype recvbuf recvcounts
            displs recvtype CROSS) := by
  constructor
  · unfold MPIHierarchicalAllgather.DoAllgatherv
    split_ifs with h1 h2 h3 h4 <;> simp_all [HierEvent.isAllgatherv]
  · unfold MPIHierarchicalAllgather.DoAllgatherv
    split_ifs with h1 h2 h3 h4 <;>
      (intro e he his
       fin_cases he <;> simp_all [HierEvent.isAllgatherv])

/-- C2 witness: on a homogeneous cluster a rank with local rank 1 issues the
cross-node Allgatherv, and that call is CROSS-scoped. -/
theorem hier_allgather_cross_participation_witness :
    (MPIHierarchicalAllgather.DoAllgatherv ⟨true, 1⟩ 0 0 none 1 7 0 [1] [0]
        7).1.any HierEvent.isAllgatherv = (true || ((1 : Int) == 0)) ∧
    HierEvent.allgatherv none 1 7 0 [1] [0] 7 CROSS =
      HierEvent.allgatherv none 1 7 0 [1] [0] 7 CROSS :=
  ⟨(hier_allgather_cross_participation ⟨true, 1⟩ 0 0 none 1 7 0 [1] [0] 7).1,
   (hier_allgather_cross_participation ⟨true, 1⟩ 0 0 none 1 7 0 [1] [0] 7).2
     (HierEvent.allgatherv none 1 7 0 [1] [0] 7 CROSS) (by decide) rfl⟩

/-- C2 counterexample: a homogeneous-cluster rank with local rank 1 does not
skip the cross-node stage — its trace contains the cross-node Allgatherv. -/
theorem hier_allgather_homogeneous_nonzero_issues :
    (MPIHierarchicalAllgather.DoAllgatherv ⟨true, 1⟩ 0 0 none 1 7 0 [1] [0]
        7).1.any HierEvent.isAllgatherv = true := rfl

/-- C6.  Every completed hierarchical-allgather execution contains exactly
one barrier, that barrier is GLOBAL-scoped, and it comes after every other
event of the execution except the closing instrumentation (in particular
after the possibly-skipped CROSS-scope Allgatherv). -/
theorem hier_allgather_barrier_spec (gs : HorovodGlobalState)
    (allgathervStatus barrierStatus : Int) (sendbuf : Option Nat)
    (sendcount : Int) (sendtype : DataType) (recvbuf : Nat)
    (recvcounts displs : List Int) (recvtype : DataType)
    (hok : (MPIHierarchicalAllgather.DoAllgatherv gs allgathervStatus
        barrierStatus sendbuf sendcount sendtype recvbuf recvcounts displs
        recvtype).2 = .ok ()) :
    ((MPIHierarchicalAllgather.DoAllgatherv gs allgathervStatus barrierStatus
        sendbuf sendcount sendtype recvbuf recvcounts displs
        recvtype).1.countP (fun e => HierEvent.isBarrier e) = 1) ∧
    ∃ pre, (MPIHierarchicalAllgather.DoAllgatherv gs allgathervStatus
        barrierStatus sendbuf sendcount sendtype recvbuf recvcounts displs
        recvtype).1 =
        pre ++ [HierEvent.barrier GLOBAL, HierEvent.activityEndAll] ∧
      ∀ e ∈ pre, HierEvent.isBarrier e = false := by
  unfold MPIHierarchicalAllgather.DoAllgatherv at hok ⊢
  split_ifs at hok ⊢ with h1 h2 h3 h4
  · refine ⟨by simp [HierEvent.isBarrier],
      [HierEvent.activityStartAll MPI_CROSS_ALLGATHER,
       HierEvent.allgatherv sendbuf sendcount sendtype recvbuf recvcounts
         displs recvtype CROSS], rfl, ?_⟩
    intro e he
    fin_cases he <;> rfl
  · refine ⟨by simp [HierEvent.isBarrier],
      [HierEvent.activityStartAll MPI_CROSS_ALLGATHER], rfl, ?_⟩
    intro e he
    fin_cases he
    rfl

/-- C6 witness: a completed execution on a rank that skips the cross-node
stage still executes exactly one barrier. -/
theorem hier_allgather_barrier_spec_witness :
    (MPIHierarchicalAllgather.DoAllgatherv ⟨false, 3⟩ 0 0 none 1 7 0 [1] [0]
        7).1.countP (fun e => HierEvent.isBarrier e) = 1 :=
  (hier_allgather_barrier_spec ⟨false, 3⟩ 0 0 none 1 7 0 [1] [0] 7 rfl).1

/-- C9.  Every call of `FreeSharedBuffer` performs exactly one release of the
window, and the synchronizing fence on that window occurs strictly before
it. -/
theorem freeSharedBuffer_fence_before_free (ctx : MPIContext)
    (fenceStatus freeStatus : Int) :
    ((ctx.FreeSharedBuffer fenceStatus freeStatus).1.countP
        (fun e => WinEvent.isFree e) = 1) ∧
    ∃ pre post, (ctx.FreeSharedBuffer fenceStatus freeStatus).1 =
        pre ++ WinEvent.free ctx.window :: post ∧
      WinEvent.fence 0 ctx.window ∈ pre := by
  refine ⟨by simp [MPIContext.FreeSharedBuffer, WinEvent.isFree],
    [WinEvent.fence 0 ctx.window], [], rfl, by simp⟩

/-- C3.  The claim extends the fatal-failure contract to the shared-buffer
operations; in the source only `Allreduce`, `Allgatherv`, `Broadcast` and
`Barrier` check the backend status, while `AllocateSharedBuffer`,
`FreeSharedBuffer` and `QuerySharedBuffer` discard it.  Amended statement:
on a non-success backend status the four collective primitives fail fatally
with an error carrying the name of the primitive after issuing the backend
call exactly once (no retry), and the three shared-buffer operations ignore
the status and never fail. -/
theorem backend_failure_spec (ctx : MPIContext) (status : Int)
    (hfail : status ≠ MPI_SUCCESS) :
    (∀ bd ne entry sendbuff comm call,
      ctx.AllreduceCallOf bd ne entry sendbuff comm = .ok call →
      ctx.Allreduce status bd ne entry sendbuff comm =
        ([call],
         .error "MPI_Allreduce failed, see MPI output for details.")) ∧
    (∀ sendbuf sendcount sendtype recvbuf recvcounts displs recvtype comm
        call,
      ctx.AllgathervCallOf sendbuf sendcount sendtype recvbuf recvcounts
          displs recvtype comm = .ok call →
      ctx.Allgatherv status sendbuf sendcount sendtype recvbuf recvcounts
          displs recvtype comm =
        ([call],
         .error "MPI_Allgatherv failed, see MPI output for details.")) ∧
    (∀ bd ne dtype root comm call,
      ctx.BcastCallOf bd ne dtype root comm = .ok call →
      ctx.Broadcast status bd ne dtype root comm =
        ([call],
         .error "MPI_Broadcast failed, see MPI output for details.")) ∧
    (∀ comm c, ctx.GetMPICommunicator comm = .ok c →
      ctx.Barrier status comm =
        ([c], .error "MPI_Barrier failed, see MPI output for details.")) ∧
    (∀ newWindow window_size element_size comm c,
      ctx.GetMPICommunicator comm = .ok c →
      (ctx.AllocateSharedBuffer status newWindow window_size element_size
          comm).2 = .ok { ctx with window := newWindow }) ∧
    (ctx.FreeSharedBuffer status status).2 = .ok { ctx with window := 0 } ∧
    (∀ rank, (ctx.QuerySharedBuffer status rank).2 = .ok ()) := by
  refine ⟨?_, ?_, ?_, ?_, ?_, rfl, fun rank => rfl⟩
  · intro bd ne entry sendbuff comm call hok
    simp [MPIContext.Allreduce, hok, hfail]
  · intro sendbuf sendcount sendtype recvbuf recvcounts displs recvtype comm
      call hok
    simp [MPIContext.Allgatherv, hok, hfail]
  · intro bd ne dtype root comm call hok
    simp [MPIContext.Broadcast, hok, hfail]
  · intro comm c hc
    simp [MPIContext.Barrier, hc, hfail]
  · intro newWindow window_size element_size comm c hc
    simp [MPIContext.AllocateSharedBuffer, hc]

/-- C3 witness: with backend status 1 the barrier fails with its name, and
the shared-buffer query still succeeds. -/
theorem backend_failure_spec_witness :
    ctx0.Barrier 1 GLOBAL =
      ([10], .error "MPI_Barrier failed, see MPI output for details.") ∧
    (ctx0.QuerySharedBuffer 1 3).2 = .ok () :=
  ⟨(backend_failure_spec ctx0 1 (by decide)).2.2.2.1 GLOBAL 10 rfl,
   (backend_failure_spec ctx0 1 (by decide)).2.2.2.2.2.2 3⟩

/-- C3 counterexample: the shared-buffer allocate operation reports success
even when the backend status is 1 (non-success), refuting the claim that
every primitive fails fatally on a non-success status. -/
theorem allocateSharedBuffer_ignores_failure :
    (ctx0.AllocateSharedBuffer 1 7 64 8 GLOBAL).2 =
      .ok { ctx0 with window := 7 } := rfl

end Horovod
